import Mathlib

/-!
Shallow embedding of `django_api_tester/routers.py` (module for iterating
DRF APIs): the classes `Router`, `RouterURLPattern` and `APIRouters`.

Modelling conventions
* A DRF/Django view class is summarised by what the code observes of it:
  the two `isinstance` checks on a fresh instance, whether the instance has
  a callable `get_queryset` (and the value a call returns), and the class
  attribute `queryset` (absent-or-None collapses to `none`, exactly the
  `getattr(cls, 'queryset', None) is not None` test).  Queryset values are
  abstract tokens, modelled as `List Nat`.
* A callback (the value of `item.callback`) has an optional `cls`
  attribute: `none` models a plain function view, for which
  `hasattr(item.callback, 'cls')` is false.
* An entry of a `url_patterns` list is either a `URLPattern` (regex,
  name, callback) or a nested `URLResolver` (regex, `app_name`,
  `namespace`, child entries).  Django's `URLResolver.__init__` sets
  `self.callback = None`, so for a resolver entry `item.callback` is
  `None` and `hasattr(item.callback, 'cls')` is false.
* `RouterURLPattern.__init__` stores the owning `Router`; every use of
  that reference goes through `self.router.prefix` and
  `self.router.router.namespace`, both functions of the wrapped
  `URLResolver` alone, so the embedding stores that resolver (this also
  breaks the Router/RouterURLPattern reference cycle).
* `APIRouters.__init__` ends with `self.sort()`, which only permutes the
  list in place using the comparison methods; the membership and lookup
  properties below are stated over the list contents, respectively over
  an arbitrarily ordered router list, and are insensitive to that
  permutation, so the sort itself is not modelled.
* Python `raise` is modelled with `Except`: `ValueError`,
  `NotImplementedError` and `AttributeError` become `.error` values whose
  message mirrors the exception.
-/

/-- Queryset values are opaque tokens; the router code only passes them
through, never inspects them. -/
abbrev QuerySet := List Nat

/-- What `routers.py` observes of a view class `cls` (the value of
`item.callback.cls`):
* `isView`: `isinstance(cls(), views.View)`;
* `isGenericViewSet`: `isinstance(cls(), viewsets.GenericViewSet)`;
* `getQueryset`: `some qs` iff `callable(getattr(cls(), 'get_queryset', None))`
  and calling `cls().get_queryset()` returns `qs`;
* `querysetAttr`: `some qs` iff `getattr(cls, 'queryset', None)` is `qs ≠ None`. -/
structure ViewCls where
  isView : Bool
  isGenericViewSet : Bool
  getQueryset : Option QuerySet
  querysetAttr : Option QuerySet
deriving DecidableEq

/-- A URL pattern's callback.  `cls = none` models a callback without a
`cls` attribute (a plain function view); DRF's `as_view` stores the view
class in `callback.cls`. -/
structure Callback where
  cls : Option ViewCls
deriving DecidableEq

mutual
/-- One entry of a `url_patterns` list: a `URLPattern` (with
`pattern.regex.pattern`, `name`, `callback`) or a nested `URLResolver`
(with `pattern.regex.pattern`, `app_name`, `namespace` and its own child
entries). -/
inductive URLEntry where
  | pat (regex : String) (name : String) (callback : Callback)
  | res (regex : String) (app_name : Option String) (nspace : Option String)
      (entries : URLEntryList)
deriving DecidableEq
/-- Child entries of a nested resolver (a plain list; kept as a separate
inductive only so that equality can be decided). -/
inductive URLEntryList where
  | nil
  | cons (e : URLEntry) (es : URLEntryList)
deriving DecidableEq
end

/-- View the child entries of a nested resolver as a `List`. -/
def URLEntryList.toList : URLEntryList → List URLEntry
  | .nil => []
  | .cons e es => e :: es.toList

/-- `item.pattern.regex.pattern`. -/
def URLEntry.regex : URLEntry → String
  | .pat r _ _ => r
  | .res r _ _ _ => r

/-- `item.name`.  Only `URLPattern` entries carry a name; the `res` branch
is never consulted, because a resolver entry is never wrapped into a
`RouterURLPattern` (its callback is `None`). -/
def URLEntry.name : URLEntry → String
  | .pat _ n _ => n
  | .res _ _ _ _ => ""

/-- `item.callback`: a `URLPattern` carries its callback, a nested
`URLResolver` has `callback = None`. -/
def URLEntry.callback? : URLEntry → Option Callback
  | .pat _ _ cb => some cb
  | .res _ _ _ _ => none

/-- The view class reached by `item.callback.cls`, when
`hasattr(item.callback, 'cls')` holds: `none` when the callback is `None`
(resolver entry) or lacks the attribute (function view). -/
def URLEntry.cls? (e : URLEntry) : Option ViewCls :=
  e.callback?.bind Callback.cls

/-- `hasattr(item.callback, 'cls') and isinstance(item.callback.cls(), views.View)`. -/
def viewTest (e : URLEntry) : Bool :=
  match e.cls? with
  | some c => c.isView
  | none => false

/-- `hasattr(item.callback, 'cls') and isinstance(item.callback.cls(), viewsets.GenericViewSet)`. -/
def genericViewSetTest (e : URLEntry) : Bool :=
  match e.cls? with
  | some c => c.isGenericViewSet
  | none => false

/-- The `URLResolver` a `Router` wraps: `pattern.regex.pattern`,
`app_name`, `namespace` (field `nspace`, since `namespace` is reserved in
Lean) and its `url_patterns`. -/
structure Resolver where
  regex : String
  app_name : Option String
  nspace : Option String
  url_patterns : List URLEntry
deriving DecidableEq

/-- Drop one leading `'^'` if present: the
`if value.startswith('^'): value = value[1:]` idiom shared by
`Router.prefix` and `RouterURLPattern.suffix`, phrased on the character
sequence (`startswith('^')` checks the first character, `value[1:]` drops
it). -/
def stripCaret (s : String) : String :=
  match s.data with
  | '^' :: rest => String.mk rest
  | _ => s

/-- `Router.prefix`, as a function of the wrapped resolver: the resolver's
regex pattern with one leading `'^'` removed if present. -/
def Resolver.prefixValue (rd : Resolver) : String :=
  stripCaret rd.regex

/-- `RouterURLPattern`: wraps an item of a router's `url_patterns` together
with (the resolver of) the owning `Router`. -/
structure RouterURLPattern where
  resolver : Resolver
  item : URLEntry
deriving DecidableEq

/-- `RouterURLPattern.suffix`: the item's regex pattern with one leading
`'^'` removed if present. -/
def RouterURLPattern.suffix (p : RouterURLPattern) : String :=
  stripCaret p.item.regex

/-- `RouterURLPattern.url_pattern`: `'^{}{}'.format(self.router.prefix, self.suffix)`. -/
def RouterURLPattern.url_pattern (p : RouterURLPattern) : String :=
  "^" ++ p.resolver.prefixValue ++ p.suffix

/-- `RouterURLPattern.view_name`:
`'{}{}'.format('{}:'.format(ns) if ns else '', self.item.name)` where `ns`
is `self.router.router.namespace`.  Python truthiness: `None` and `''` are
falsy. -/
def RouterURLPattern.view_name (p : RouterURLPattern) : String :=
  (match p.resolver.nspace with
   | some ns => if ns = "" then "" else ns ++ ":"
   | none => "") ++ p.item.name

/-- `RouterURLPattern.queryset`:
`cls = self.item.callback.cls`; if the instance has a callable
`get_queryset`, return `cls().get_queryset()`; elif the class attribute
`queryset` is not `None`, return it; else raise `NotImplementedError`.
When the chain `self.item.callback.cls` is unavailable the attribute
lookup itself raises (`AttributeError`); such a pattern is never produced
by `Router.__init__`. -/
def RouterURLPattern.queryset (p : RouterURLPattern) : Except String QuerySet :=
  match p.item.cls? with
  | none => .error "AttributeError"
  | some cls =>
    match cls.getQueryset with
    | some qs => .ok qs
    | none =>
      match cls.querysetAttr with
      | some qs => .ok qs
      | none => .error "NotImplementedError: View does not implement queryset or get_queryset"

/-- A `Router`: the wrapped `URLResolver` and the `url_patterns` list built
by `Router.__init__`. -/
structure Router where
  resolver : Resolver
  url_patterns : List RouterURLPattern
deriving DecidableEq

/-- The loop body of `Router.__init__`: for each item, append a wrapper if
the `views.View` instance test passes, and (independently, a second `if`)
append another wrapper if the `viewsets.GenericViewSet` instance test
passes. -/
def Router.collect (rd : Resolver) : List URLEntry → List RouterURLPattern
  | [] => []
  | item :: rest =>
    (if viewTest item then [RouterURLPattern.mk rd item] else [])
      ++ (if genericViewSetTest item then [RouterURLPattern.mk rd item] else [])
      ++ Router.collect rd rest

/-- `Router.__init__(router)`. -/
def Router.init (rd : Resolver) : Router :=
  ⟨rd, Router.collect rd rd.url_patterns⟩

/-- `Router.prefix` on the built object. -/
def Router.prefixValue (rt : Router) : String :=
  rt.resolver.prefixValue

/-- Inner loop of `Router.get_url_pattern`. -/
def findByURLPattern : List RouterURLPattern → String → Option RouterURLPattern
  | [], _ => none
  | item :: rest, s =>
    if item.url_pattern = s then some item else findByURLPattern rest s

/-- `Router.get_url_pattern(url_pattern)`: first wrapper whose string
presentation matches, else `None`. -/
def Router.get_url_pattern (rt : Router) (s : String) : Option RouterURLPattern :=
  findByURLPattern rt.url_patterns s

/-- `Router.__eq__`.  The first branch returns
`self.router.namespace == other.router.namespace` (necessarily `False`
there).  A `URLResolver` always has the `app_name` attribute, so the
`hasattr` guard of the second branch always holds and the method returns
`self.router.app_name == other.router.namespace`; the trailing `return 0`
is unreachable for resolver-backed routers. -/
def Router.eqOp (a b : Router) : Bool :=
  if a.resolver.nspace ≠ b.resolver.nspace then
    decide (a.resolver.nspace = b.resolver.nspace)
  else
    decide (a.resolver.app_name = b.resolver.nspace)

/-- `IGNORE_ROUTER_NAMES = (None, 'admin', 'rest_framework')`. -/
def IGNORE_ROUTER_NAMES : List (Option String) :=
  [none, some "admin", some "rest_framework"]

/-- The construction loop of `APIRouters.__init__` over the root URL
configuration's `urlpatterns`: skip entries that are not `URLResolver`s,
skip resolvers whose `app_name` is in `IGNORE_ROUTER_NAMES`, and append
`Router(router)` for the rest.  The final `self.sort()` permutes the
result in place and is not modelled (see the header comment). -/
def APIRouters.build : List URLEntry → List Router
  | [] => []
  | e :: rest =>
    match e with
    | .pat _ _ _ => APIRouters.build rest
    | .res regex app_name ns entries =>
      if app_name ∈ IGNORE_ROUTER_NAMES then APIRouters.build rest
      else Router.init ⟨regex, app_name, ns, entries.toList⟩ :: APIRouters.build rest

/-- `APIRouters.get_router_for_namespace(namespace)`: first router whose
resolver namespace equals the argument, else `None`. -/
def APIRouters.get_router_for_namespace : List Router → Option String → Option Router
  | [], _ => none
  | rt :: rest, ns =>
    if rt.resolver.nspace = ns then some rt
    else APIRouters.get_router_for_namespace rest ns

/-- Inner loop of `APIRouters.get_view_url_pattern`. -/
def findByViewName : List RouterURLPattern → String → Option RouterURLPattern
  | [], _ => none
  | p :: rest, vn =>
    if p.view_name = vn then some p else findByViewName rest vn

/-- `APIRouters.get_view_url_pattern(view_name)`: nested loop over routers
then their `url_patterns`, returning the first wrapper with the given
`view_name`, raising `ValueError` when none matches. -/
def APIRouters.get_view_url_pattern : List Router → String → Except String RouterURLPattern
  | [], vn => .error ("No such view: " ++ vn)
  | rt :: rest, vn =>
    match findByViewName rt.url_patterns vn with
    | some p => .ok p
    | none => APIRouters.get_view_url_pattern rest vn

/-! ### Concrete inputs, used by the witness and counterexample theorems

They mirror the shipped example application: a DRF router registered under
`path('example/', include('apps.example.urls', namespace='example'))`. -/

/-- A view class whose instance passes the `views.View` test and has a
callable `get_queryset`. -/
def demoViewCls : ViewCls := ⟨true, false, some [1], none⟩

/-- An endpoint item as produced by a DRF router registration. -/
def demoItem : URLEntry := .pat "^simple-examples$" "example-list" ⟨some demoViewCls⟩

/-- The top-level resolver of the example URL configuration. -/
def demoResolver : Resolver := ⟨"^example/", some "example", some "example", [demoItem]⟩

/-- A root URL configuration holding the example resolver next to the
admin resolver that must be filtered out. -/
def demoConfig : List URLEntry :=
  [.res "^example/" (some "example") (some "example") (.cons demoItem .nil),
   .res "^admin/" (some "admin") (some "admin") .nil]

/-- The wrapper `Router.__init__` builds for `demoItem`. -/
def demoPattern : RouterURLPattern := ⟨demoResolver, demoItem⟩

/-- A view class defining neither a callable `get_queryset` nor a
non-`None` `queryset` attribute. -/
def lazyViewCls : ViewCls := ⟨true, false, none, none⟩

/-- An endpoint whose view cannot resolve any queryset. -/
def lazyItem : URLEntry := .pat "^lazy/$" "lazy-list" ⟨some lazyViewCls⟩

/-- Resolver owning `lazyItem`. -/
def lazyResolver : Resolver := ⟨"^lazy/", some "lazy", some "lazy", [lazyItem]⟩

/-- The wrapper built for `lazyItem`. -/
def lazyPattern : RouterURLPattern := ⟨lazyResolver, lazyItem⟩

/-- An endpoint item below a resolver whose regex starts with two carets. -/
def caretItem : URLEntry := .pat "^x$" "x-view" ⟨some ⟨true, false, some [3], none⟩⟩

/-- A resolver whose regex pattern begins with `'^^'`: stripping a single
leading caret leaves a prefix that still starts with `'^'`. -/
def caretResolver : Resolver := ⟨"^^api/", some "api", some "api", [caretItem]⟩

/-- An endpoint registered under a resolver (`v1`) nested inside a
top-level resolver (`shop`). -/
def nestedItem : URLEntry := .pat "^items/$" "items" ⟨some ⟨true, false, some [2], none⟩⟩

/-- Root URL configuration with the nested registration of `nestedItem`. -/
def nestedConfig : List URLEntry :=
  [.res "^shop/" (some "shop") (some "shop")
    (.cons (.res "^v1/" (some "v1") (some "v1") (.cons nestedItem .nil)) .nil)]

/-- A router whose resolver has `app_name = 'example'` but
`namespace = 'v1'`, as `include(('apps.example.urls', 'example'), namespace='v1')`
produces. -/
def mismatchRouter : Router := Router.init ⟨"^api/", some "example", some "v1", []⟩

/-- A viewset class whose instances pass both instance tests, as every
DRF `GenericViewSet` does (it subclasses `APIView`, hence `views.View`). -/
def gvsViewCls : ViewCls := ⟨true, true, some [4], none⟩

/-- An endpoint item whose callback class is a `GenericViewSet`. -/
def gvsItem : URLEntry := .pat "^uuid-examples$" "example-uuid-list" ⟨some gvsViewCls⟩

/-- Resolver owning `gvsItem`. -/
def gvsResolver : Resolver := ⟨"^gvs/", some "gvs", some "gvs", [gvsItem]⟩

/-! ### Lemmas about the discovery loop -/

/-- Unfolding of the `views.View` membership test. -/
theorem viewTest_iff {e : URLEntry} :
    viewTest e = true ↔ ∃ c, e.cls? = some c ∧ c.isView = true := by
  unfold viewTest
  cases h : e.cls? <;> simp

/-- Unfolding of the `viewsets.GenericViewSet` membership test. -/
theorem genericViewSetTest_iff {e : URLEntry} :
    genericViewSetTest e = true ↔ ∃ c, e.cls? = some c ∧ c.isGenericViewSet = true := by
  unfold genericViewSetTest
  cases h : e.cls? <;> simp

/-- A reachable view class comes through the callback's `cls` attribute. -/
theorem cls?_eq_some {e : URLEntry} {c : ViewCls} (h : e.cls? = some c) :
    ∃ cb, e.callback? = some cb ∧ cb.cls = some c := by
  unfold URLEntry.cls? at h
  cases hcb : e.callback? with
  | none => rw [hcb] at h; simp at h
  | some cb => rw [hcb] at h; exact ⟨cb, rfl, h⟩

/-- Membership in the list built by the `Router.__init__` loop: exactly the
items passing at least one of the two instance tests are wrapped, with the
owning resolver recorded. -/
theorem mem_collect {rd : Resolver} {l : List URLEntry} {p : RouterURLPattern} :
    p ∈ Router.collect rd l ↔
      ∃ item, item ∈ l ∧ p = RouterURLPattern.mk rd item ∧
        (viewTest item = true ∨ genericViewSetTest item = true) := by
  induction l with
  | nil => simp [Router.collect]
  | cons item rest ih =>
    simp only [Router.collect, List.mem_append, ih, List.mem_cons]
    constructor
    · rintro ((h | h) | ⟨a, ha, hpa, hta⟩)
      · by_cases hv : viewTest item = true
        · rw [if_pos hv, List.mem_singleton] at h
          exact ⟨item, Or.inl rfl, h, Or.inl hv⟩
        · rw [if_neg hv] at h
          exact absurd h (List.not_mem_nil _)
      · by_cases hg : genericViewSetTest item = true
        · rw [if_pos hg, List.mem_singleton] at h
          exact ⟨item, Or.inl rfl, h, Or.inr hg⟩
        · rw [if_neg hg] at h
          exact absurd h (List.not_mem_nil _)
      · exact ⟨a, Or.inr ha, hpa, hta⟩
    · rintro ⟨a, ha | ha, hpa, ht⟩
      · subst ha; subst hpa
        rcases ht with hv | hg
        · exact Or.inl (Or.inl (by rw [if_pos hv]; exact List.mem_singleton.2 rfl))
        · exact Or.inl (Or.inr (by rw [if_pos hg]; exact List.mem_singleton.2 rfl))
      · exact Or.inr ⟨a, ha, hpa, ht⟩

/-- Counting the wrappers the `Router.__init__` loop produces for a given
item: one per satisfied instance test, per occurrence of the item. -/
theorem count_collect (rd : Resolver) (item : URLEntry) (l : List URLEntry) :
    (Router.collect rd l).count (RouterURLPattern.mk rd item) =
      ((if viewTest item = true then 1 else 0) +
        (if genericViewSetTest item = true then 1 else 0)) * l.count item := by
  induction l with
  | nil => simp [Router.collect]
  | cons e rest ih =>
    rw [Router.collect, List.count_append, List.count_append, ih, List.count_cons]
    by_cases he : e = item
    · subst he
      by_cases hv : viewTest e = true <;> by_cases hg : genericViewSetTest e = true <;>
        simp [hv, hg, List.count_cons] <;> ring
    · have h1 : ((RouterURLPattern.mk rd e) == (RouterURLPattern.mk rd item)) = false := by
        simp [he]
      have h2 : ((e : URLEntry) == item) = false := by
        simp [he]
      by_cases hv : viewTest e = true <;> by_cases hg : genericViewSetTest e = true <;>
        simp [hv, hg, List.count_cons, h1, h2]

/-- The inner loop of `get_view_url_pattern` is a first-match search. -/
theorem findByViewName_eq_find? (l : List RouterURLPattern) (vn : String) :
    findByViewName l vn = l.find? (fun p => p.view_name == vn) := by
  induction l with
  | nil => rfl
  | cons p rest ih =>
    by_cases h : p.view_name = vn <;>
      simp [findByViewName, h, ih, List.find?_cons]

/-- The loop of `Router.get_url_pattern` is a first-match search. -/
theorem findByURLPattern_eq_find? (l : List RouterURLPattern) (s : String) :
    findByURLPattern l s = l.find? (fun p => p.url_pattern == s) := by
  induction l with
  | nil => rfl
  | cons p rest ih =>
    by_cases h : p.url_pattern = s <;>
      simp [findByURLPattern, h, ih, List.find?_cons]

/-- The loop of `get_router_for_namespace` is a first-match search. -/
theorem get_router_for_namespace_eq_find? (routers : List Router) (ns : Option String) :
    APIRouters.get_router_for_namespace routers ns =
      routers.find? (fun r => r.resolver.nspace == ns) := by
  induction routers with
  | nil => rfl
  | cons rt rest ih =>
    by_cases h : rt.resolver.nspace = ns <;>
      simp [APIRouters.get_router_for_namespace, h, ih, List.find?_cons]

/-- Membership in the router list built by the `APIRouters.__init__` loop:
exactly the `URLResolver` entries whose `app_name` is not ignored
contribute, each as `Router(router)`. -/
theorem mem_build {ups : List URLEntry} {rt : Router} :
    rt ∈ APIRouters.build ups ↔
      ∃ regex a ns entries,
        URLEntry.res regex a ns entries ∈ ups ∧
        a ∉ IGNORE_ROUTER_NAMES ∧
        rt = Router.init ⟨regex, a, ns, entries.toList⟩ := by
  induction ups with
  | nil => simp [APIRouters.build]
  | cons e rest ih =>
    cases e with
    | pat r n cb =>
      simp only [APIRouters.build, ih, List.mem_cons]
      constructor
      · rintro ⟨regex, a, ns, entries, hmem, hig, hrt⟩
        exact ⟨regex, a, ns, entries, Or.inr hmem, hig, hrt⟩
      · rintro ⟨regex, a, ns, entries, heq | hmem, hig, hrt⟩
        · simp at heq
        · exact ⟨regex, a, ns, entries, hmem, hig, hrt⟩
    | res r a0 ns0 entries0 =>
      by_cases hig0 : a0 ∈ IGNORE_ROUTER_NAMES
      · simp only [APIRouters.build, if_pos hig0, ih]
        constructor
        · rintro ⟨regex, a, ns, entries, hmem, hig, hrt⟩
          exact ⟨regex, a, ns, entries, List.mem_cons_of_mem _ hmem, hig, hrt⟩
        · rintro ⟨regex, a, ns, entries, hmem, hig, hrt⟩
          rcases List.mem_cons.1 hmem with heq | hmem'
          · injection heq with h1 h2 h3 h4
            subst h2
            exact absurd hig0 hig
          · exact ⟨regex, a, ns, entries, hmem', hig, hrt⟩
      · simp only [APIRouters.build, if_neg hig0, List.mem_cons, ih]
        constructor
        · rintro (hrt | ⟨regex, a, ns, entries, hmem, hig, hrt⟩)
          · exact ⟨r, a0, ns0, entries0, Or.inl rfl, hig0, hrt⟩
          · exact ⟨regex, a, ns, entries, Or.inr hmem, hig, hrt⟩
        · rintro ⟨regex, a, ns, entries, hmem, hig, hrt⟩
          rcases hmem with heq | hmem'
          · injection heq with h1 h2 h3 h4
            subst h1; subst h2; subst h3; subst h4
            exact Or.inl hrt
          · exact Or.inr ⟨regex, a, ns, entries, hmem', hig, hrt⟩

/-! ### Claim theorems -/

/-- C2: the `APIRouters.__init__` loop appends a `Router` for an entry of
the root URL configuration's `urlpatterns` if and only if that entry is a
`URLResolver` whose `app_name` is neither `None`, `'admin'` nor
`'rest_framework'`; all other entries contribute nothing. -/
theorem apirouters_filters_irrelevant_routes (ups : List URLEntry) (rt : Router) :
    rt ∈ APIRouters.build ups ↔
      ∃ regex a ns entries,
        URLEntry.res regex a ns entries ∈ ups ∧
        a ≠ none ∧ a ≠ some "admin" ∧ a ≠ some "rest_framework" ∧
        rt = Router.init ⟨regex, a, ns, entries.toList⟩ := by
  rw [mem_build]
  have hig : ∀ a : Option String,
      a ∉ IGNORE_ROUTER_NAMES ↔
        (a ≠ none ∧ a ≠ some "admin" ∧ a ≠ some "rest_framework") := by
    intro a
    simp [IGNORE_ROUTER_NAMES, not_or]
  constructor
  · rintro ⟨regex, a, ns, entries, hmem, hi, hrt⟩
    obtain ⟨h1, h2, h3⟩ := (hig a).1 hi
    exact ⟨regex, a, ns, entries, hmem, h1, h2, h3, hrt⟩
  · rintro ⟨regex, a, ns, entries, hmem, h1, h2, h3, hrt⟩
    exact ⟨regex, a, ns, entries, hmem, (hig a).2 ⟨h1, h2, h3⟩, hrt⟩

/-- Witness for C2: the example resolver survives the filter and yields a
router in the built list. -/
theorem apirouters_filters_irrelevant_routes_witness :
    Router.init demoResolver ∈ APIRouters.build demoConfig :=
  (apirouters_filters_irrelevant_routes demoConfig (Router.init demoResolver)).2
    ⟨"^example/", some "example", some "example", .cons demoItem .nil,
      by decide, by decide, by decide, by decide, rfl⟩

/-- C7: every wrapper in `Router.url_patterns` wraps an item whose callback
has a `cls` attribute instantiating to a class-based `views.View` or to a
`viewsets.GenericViewSet`; items lacking the attribute, or instantiating
to neither, are never included. -/
theorem url_patterns_only_class_based_views (rd : Resolver) (p : RouterURLPattern)
    (hp : p ∈ (Router.init rd).url_patterns) :
    ∃ cb c, p.item.callback? = some cb ∧ cb.cls = some c ∧
      (c.isView = true ∨ c.isGenericViewSet = true) := by
  have hp' : p ∈ Router.collect rd rd.url_patterns := hp
  obtain ⟨item, hitem, hpeq, ht⟩ := mem_collect.1 hp'
  subst hpeq
  rcases ht with hv | hg
  · obtain ⟨c, hc, hview⟩ := viewTest_iff.1 hv
    obtain ⟨cb, hcb, hcls⟩ := cls?_eq_some hc
    exact ⟨cb, c, hcb, hcls, Or.inl hview⟩
  · obtain ⟨c, hc, hgvs⟩ := genericViewSetTest_iff.1 hg
    obtain ⟨cb, hcb, hcls⟩ := cls?_eq_some hc
    exact ⟨cb, c, hcb, hcls, Or.inr hgvs⟩

/-- Witness for C7 at the example endpoint. -/
theorem url_patterns_only_class_based_views_witness :
    ∃ cb c, demoPattern.item.callback? = some cb ∧ cb.cls = some c ∧
      (c.isView = true ∨ c.isGenericViewSet = true) :=
  url_patterns_only_class_based_views demoResolver demoPattern (by decide)

/-- C8: the two `if` statements of `Router.__init__` are independent, so an
item is wrapped once per satisfied instance test (per occurrence in the
resolver's `url_patterns`): an item whose class instantiates to both a
`View` and a `GenericViewSet` and occurs once yields two identical
wrappers, while an item satisfying exactly one test yields one. -/
theorem duplicate_wrappers_per_instance_test (rd : Resolver) (item : URLEntry) :
    (((Router.init rd).url_patterns).count (RouterURLPattern.mk rd item) =
      ((if viewTest item = true then 1 else 0) +
        (if genericViewSetTest item = true then 1 else 0)) * rd.url_patterns.count item) ∧
    (viewTest item = true → genericViewSetTest item = true →
      rd.url_patterns.count item = 1 →
      ((Router.init rd).url_patterns).count (RouterURLPattern.mk rd item) = 2) := by
  refine ⟨count_collect rd item rd.url_patterns, fun hv hg h1 => ?_⟩
  have h := count_collect rd item rd.url_patterns
  rw [h1, if_pos hv, if_pos hg] at h
  exact h

/-- Witness for C8: the `GenericViewSet` endpoint is wrapped twice. -/
theorem duplicate_wrappers_per_instance_test_witness :
    ((Router.init gvsResolver).url_patterns).count
        (RouterURLPattern.mk gvsResolver gvsItem) = 2 :=
  (duplicate_wrappers_per_instance_test gvsResolver gvsItem).2
    (by decide) (by decide) (by decide)

/-- C4: `get_view_url_pattern` returns the first wrapper (in router order,
then pattern order) whose `view_name` equals the argument, raises
`ValueError` when no registered pattern has that view name, and never
returns a wrapper with a different `view_name`. -/
theorem get_view_url_pattern_first_match_or_error (routers : List Router) (vn : String) :
    (APIRouters.get_view_url_pattern routers vn =
      match (routers.flatMap Router.url_patterns).find? (fun p => p.view_name == vn) with
      | some p => Except.ok p
      | none => Except.error ("No such view: " ++ vn)) ∧
    (∀ p, APIRouters.get_view_url_pattern routers vn = Except.ok p → p.view_name = vn) ∧
    ((∀ rt ∈ routers, ∀ p ∈ rt.url_patterns, p.view_name ≠ vn) →
      APIRouters.get_view_url_pattern routers vn = Except.error ("No such view: " ++ vn)) := by
  have hmain : ∀ (rs : List Router),
      APIRouters.get_view_url_pattern rs vn =
        match (rs.flatMap Router.url_patterns).find? (fun p => p.view_name == vn) with
        | some p => Except.ok p
        | none => Except.error ("No such view: " ++ vn) := by
    intro rs
    induction rs with
    | nil => rfl
    | cons rt rest ih =>
      rw [APIRouters.get_view_url_pattern, findByViewName_eq_find?,
        List.flatMap_cons, List.find?_append]
      cases h : rt.url_patterns.find? (fun p => p.view_name == vn) with
      | some p => simp [h]
      | none => simp [h, ih]
  refine ⟨hmain routers, ?_, ?_⟩
  · intro p hp
    rw [hmain routers] at hp
    cases h : (routers.flatMap Router.url_patterns).find? (fun q => q.view_name == vn) with
    | some q =>
      rw [h] at hp
      injection hp with hqp
      subst hqp
      have hq := List.find?_some h
      exact eq_of_beq hq
    | none =>
      rw [h] at hp
      exact absurd hp (by simp)
  · intro hall
    rw [hmain routers]
    have hnone : (routers.flatMap Router.url_patterns).find? (fun q => q.view_name == vn)
        = none := by
      rw [List.find?_eq_none]
      intro x hx
      rw [List.mem_flatMap] at hx
      obtain ⟨rt, hrt, hxrt⟩ := hx
      simp only [beq_iff_eq]
      exact hall rt hrt x hxrt
    rw [hnone]

/-- Witness for C4: resolving the example view name yields the example
wrapper, and an unknown view name raises `ValueError`. -/
theorem get_view_url_pattern_first_match_or_error_witness :
    APIRouters.get_view_url_pattern [Router.init demoResolver] "no-such-view" =
      Except.error ("No such view: " ++ "no-such-view") :=
  (get_view_url_pattern_first_match_or_error [Router.init demoResolver] "no-such-view").2.2
    (by decide)

/-- C9: both secondary lookups are pure first-match searches that return
`None` (`none`) on a miss instead of raising: `get_router_for_namespace`
over the router list, `Router.get_url_pattern` over the wrapper list; a
returned value always satisfies the looked-up equality.  (In this pure
embedding the collections are read-only by construction.) -/
theorem lookup_helpers_return_none_on_miss (routers : List Router) (ns : Option String)
    (rt : Router) (s : String) :
    (APIRouters.get_router_for_namespace routers ns =
        routers.find? (fun r => r.resolver.nspace == ns)) ∧
    ((∀ r ∈ routers, r.resolver.nspace ≠ ns) →
        APIRouters.get_router_for_namespace routers ns = none) ∧
    (∀ r, APIRouters.get_router_for_namespace routers ns = some r →
        r.resolver.nspace = ns) ∧
    (Router.get_url_pattern rt s =
        rt.url_patterns.find? (fun p => p.url_pattern == s)) ∧
    ((∀ p ∈ rt.url_patterns, p.url_pattern ≠ s) → Router.get_url_pattern rt s = none) ∧
    (∀ p, Router.get_url_pattern rt s = some p → p.url_pattern = s) := by
  have h1 := get_router_for_namespace_eq_find? routers ns
  have h2 : Router.get_url_pattern rt s =
      rt.url_patterns.find? (fun p => p.url_pattern == s) :=
    findByURLPattern_eq_find? rt.url_patterns s
  refine ⟨h1, ?_, ?_, h2, ?_, ?_⟩
  · intro hall
    rw [h1, List.find?_eq_none]
    intro r hr
    simp only [beq_iff_eq]
    exact hall r hr
  · intro r hr
    rw [h1] at hr
    have hq := List.find?_some hr
    exact eq_of_beq hq
  · intro hall
    rw [h2, List.find?_eq_none]
    intro p hp
    simp only [beq_iff_eq]
    exact hall p hp
  · intro p hp
    rw [h2] at hp
    have hq := List.find?_some hp
    exact eq_of_beq hq

/-- Witness for C9: a namespace absent from the router list and a URL
pattern string absent from a router both yield `none`. -/
theorem lookup_helpers_return_none_on_miss_witness :
    APIRouters.get_router_for_namespace [Router.init demoResolver] (some "missing") = none ∧
    Router.get_url_pattern (Router.init demoResolver) "^missing$" = none :=
  ⟨(lookup_helpers_return_none_on_miss [Router.init demoResolver] (some "missing")
      (Router.init demoResolver) "^missing$").2.1 (by decide),
   (lookup_helpers_return_none_on_miss [Router.init demoResolver] (some "missing")
      (Router.init demoResolver) "^missing$").2.2.2.2.1 (by decide)⟩

/-- C6: `view_name` is the resolver's namespace, a colon and the item's
name when the namespace is truthy (neither `None` nor empty), and the
item's name alone when the namespace is `None` or empty. -/
theorem view_name_namespace_formatting (p : RouterURLPattern) :
    (∀ ns, p.resolver.nspace = some ns → ns ≠ "" →
        p.view_name = ns ++ ":" ++ p.item.name) ∧
    (p.resolver.nspace = none ∨ p.resolver.nspace = some "" →
        p.view_name = p.item.name) := by
  unfold RouterURLPattern.view_name
  refine ⟨?_, ?_⟩
  · intro ns h hne
    rw [h]
    simp [hne]
  · rintro (h | h) <;> rw [h] <;> simp

/-- Witness for C6 at the example endpoint (namespace `'example'`). -/
theorem view_name_namespace_formatting_witness :
    demoPattern.view_name = "example" ++ ":" ++ demoPattern.item.name :=
  (view_name_namespace_formatting demoPattern).1 "example" rfl (by decide)

/-- C5: `queryset` resolution order, and its laziness.  For a wrapper whose
view class is `c`: a callable `get_queryset` wins and its call result is
returned; otherwise a non-`None` `queryset` class attribute is returned;
otherwise `NotImplementedError` is raised.  Nothing of this runs during
discovery: `Router.__init__` wraps the item from the instance tests alone,
so an item whose class resolves no queryset at all is still discovered
(the error only surfaces on property access, as the witness shows). -/
theorem queryset_lazy_resolution_order (p : RouterURLPattern) (c : ViewCls)
    (hc : p.item.cls? = some c) :
    (∀ qs, c.getQueryset = some qs → p.queryset = Except.ok qs) ∧
    (c.getQueryset = none → ∀ qs, c.querysetAttr = some qs →
        p.queryset = Except.ok qs) ∧
    (c.getQueryset = none → c.querysetAttr = none →
        p.queryset =
          Except.error "NotImplementedError: View does not implement queryset or get_queryset") ∧
    ((c.isView = true ∨ c.isGenericViewSet = true) →
        ∀ rd, p.item ∈ rd.url_patterns →
          RouterURLPattern.mk rd p.item ∈ (Router.init rd).url_patterns) := by
  refine ⟨?_, ?_, ?_, ?_⟩
  · intro qs hq
    simp [RouterURLPattern.queryset, hc, hq]
  · intro hq qs ha
    simp [RouterURLPattern.queryset, hc, hq, ha]
  · intro hq ha
    simp [RouterURLPattern.queryset, hc, hq, ha]
  · intro ht rd hmem
    have ht' : viewTest p.item = true ∨ genericViewSetTest p.item = true := by
      rcases ht with hv | hg
      · exact Or.inl (viewTest_iff.2 ⟨c, hc, hv⟩)
      · exact Or.inr (genericViewSetTest_iff.2 ⟨c, hc, hg⟩)
    exact mem_collect.2 ⟨p.item, hmem, rfl, ht'⟩

/-- Witness for C5: the view with neither `get_queryset` nor `queryset` is
discovered, yet accessing `queryset` raises `NotImplementedError`. -/
theorem queryset_lazy_resolution_order_witness :
    lazyPattern.queryset =
        Except.error "NotImplementedError: View does not implement queryset or get_queryset" ∧
      RouterURLPattern.mk lazyResolver lazyPattern.item ∈
        (Router.init lazyResolver).url_patterns := by
  have h := queryset_lazy_resolution_order lazyPattern lazyViewCls rfl
  exact ⟨h.2.2.1 rfl rfl, h.2.2.2 (Or.inl rfl) lazyResolver (by decide)⟩

/-- C1 (amended): for every wrapper `p` built by `Router.__init__` on a
resolver `rd`, the owning resolver is `rd` and
`p.url_pattern = '^' + prefix + suffix`, with the prefix and suffix being
the resolver's and the item's regex pattern, each with one leading `'^'`
removed if present.  Consequently every full URL pattern string starts
with `'^'` — but not necessarily with exactly one `'^'`: stripping removes
at most one caret, so a resolver pattern beginning with `'^^'` yields a
full pattern beginning with `'^^'` (see the counterexample). -/
theorem url_pattern_prefix_suffix_composition (rd : Resolver) (p : RouterURLPattern)
    (hp : p ∈ (Router.init rd).url_patterns) :
    p.resolver = rd ∧
    p.url_pattern = "^" ++ stripCaret rd.regex ++ stripCaret p.item.regex ∧
    p.url_pattern.data.head? = some '^' := by
  have hp' : p ∈ Router.collect rd rd.url_patterns := hp
  obtain ⟨item, hitem, hpeq, ht⟩ := mem_collect.1 hp'
  subst hpeq
  refine ⟨rfl, rfl, ?_⟩
  show ("^" ++ rd.prefixValue ++ (RouterURLPattern.mk rd item).suffix).data.head? = some '^'
  rw [String.data_append, String.data_append]
  rfl

/-- Witness for C1 at the example endpoint. -/
theorem url_pattern_prefix_suffix_composition_witness :
    demoPattern.resolver = demoResolver ∧
    demoPattern.url_pattern =
      "^" ++ stripCaret demoResolver.regex ++ stripCaret demoPattern.item.regex ∧
    demoPattern.url_pattern.data.head? = some '^' :=
  url_pattern_prefix_suffix_composition demoResolver demoPattern (by decide)

/-- Counterexample for C1's consequence clause: on a resolver whose regex
pattern is `'^^api/'`, the built wrapper's full URL pattern is
`'^^api/x$'`, whose run of leading carets has length two, not one — the
claim that every full URL pattern string starts with exactly one `'^'`
fails. -/
theorem url_pattern_double_caret_counterexample :
    ∃ p ∈ (Router.init caretResolver).url_patterns,
      (p.url_pattern.data.takeWhile (fun c => c = '^')).length ≠ 1 := by
  decide

/-- Counterexample for C3: in `nestedConfig` the endpoint `nestedItem` is
registered under the resolver `v1`, itself nested inside the relevant
top-level resolver `shop`; no router in the built list carries a wrapper
for it (the nested resolver's callback is `None`, so the `Router.__init__`
tests skip the whole subtree). -/
theorem nested_endpoint_not_discovered_counterexample :
    ¬ ∃ rt ∈ APIRouters.build nestedConfig, ∃ p ∈ rt.url_patterns,
        p.item = nestedItem := by
  decide

/-- C3 (amended): discovery reaches exactly the direct `url_patterns` items
of relevant top-level resolvers.  Every wrapper in the built map wraps a
direct child of a top-level resolver that passed the `app_name` filter,
and conversely every direct child passing an instance test is wrapped;
endpoints below a resolver nested inside a top-level resolver are never
reached (see the counterexample). -/
theorem discovery_covers_only_direct_patterns (ups : List URLEntry) :
    (∀ rt ∈ APIRouters.build ups, ∀ p ∈ rt.url_patterns,
        ∃ regex a ns entries,
          URLEntry.res regex a ns entries ∈ ups ∧ a ∉ IGNORE_ROUTER_NAMES ∧
          p.item ∈ entries.toList) ∧
    (∀ regex a ns entries, URLEntry.res regex a ns entries ∈ ups →
        a ∉ IGNORE_ROUTER_NAMES →
        ∀ item ∈ entries.toList,
          (viewTest item = true ∨ genericViewSetTest item = true) →
          ∃ rt ∈ APIRouters.build ups, ∃ p ∈ rt.url_patterns, p.item = item) := by
  constructor
  · intro rt hrt p hp
    obtain ⟨regex, a, ns, entries, hmem, hig, hrteq⟩ := mem_build.1 hrt
    subst hrteq
    have hp' : p ∈ Router.collect ⟨regex, a, ns, entries.toList⟩ entries.toList := hp
    obtain ⟨item, hitem, hpeq, ht⟩ := mem_collect.1 hp'
    subst hpeq
    exact ⟨regex, a, ns, entries, hmem, hig, hitem⟩
  · intro regex a ns entries hmem hig item hitem ht
    exact ⟨Router.init ⟨regex, a, ns, entries.toList⟩,
      mem_build.2 ⟨regex, a, ns, entries, hmem, hig, rfl⟩,
      RouterURLPattern.mk ⟨regex, a, ns, entries.toList⟩ item,
      mem_collect.2 ⟨item, hitem, rfl, ht⟩, rfl⟩

/-- Witness for C3 (amended): the direct example endpoint is discovered. -/
theorem discovery_covers_only_direct_patterns_witness :
    ∃ rt ∈ APIRouters.build demoConfig, ∃ p ∈ rt.url_patterns, p.item = demoItem :=
  (discovery_covers_only_direct_patterns demoConfig).2 "^example/" (some "example")
    (some "example") (.cons demoItem .nil) (by decide) (by decide) demoItem (by decide)
    (Or.inl (by decide))

/-- C10: `Router.__eq__` is not reflexive.  With namespaces equal it
returns `self.router.app_name == other.router.namespace` — comparing the
app name against the namespace — although the guarding `hasattr` checks
both objects' `app_name`, so for a router with `app_name = 'example'` and
`namespace = 'v1'` even `r == r` evaluates to `False`; the same input
refutes the clause that routers with equal namespaces and equal app names
compare equal. -/
theorem router_eq_not_reflexive_on_code :
    Router.eqOp mismatchRouter mismatchRouter = false := by
  decide
